import Mathlib

set_option maxRecDepth 10000

/-!
Verification development for the staticdash static-site generator
(`staticdash/dashboard.py`).

The Python data model and rendering pipeline are shallowly embedded:
pure functions become Lean functions, the mutable figure objects are
passed as explicit state, Python exceptions become `Except String`,
and the external collaborators (plotly, matplotlib, pandas, base64)
are modelled as deterministic capability functions over small records.
-/

namespace Staticdash

/-- Python `a or b` on optional integers: `None` and `0` are falsy. -/
def pyOrN : Option Nat → Option Nat → Option Nat
  | some n, y => if n = 0 then y else some n
  | none, y => y

/-- Python `a or b` on optional strings: `None` and `""` are falsy. -/
def pyOrS : Option String → Option String → Option String
  | some s, y => if s = "" then y else some s
  | none, y => y

/-- Python truthiness of an optional string (`None` and `""` are falsy). -/
def truthyS : Option String → Bool
  | none => false
  | some s => !(s == "")

/-- How an optional integer prints inside a Python f-string (`None` prints as `"None"`). -/
def pyStrN : Option Nat → String
  | none => "None"
  | some n => toString n

/-- Model of an externally supplied figure object.  The duck-typed
capability check `hasattr(fig, "to_html")` becomes the `hasToHtml` flag;
`layoutHeight`/`layoutWidth` model `fig.layout.height/width` (plotly);
`sizeInchesW/H` and `dpi` model `fig.get_size_inches()`/`fig.get_dpi()`
(matplotlib; `dpi = none` models `get_dpi` raising, caught in the source);
the `*Fail` fields model the external serializer raising an exception. -/
structure Fig where
  hasToHtml : Bool
  layoutHeight : Option Nat := none
  layoutWidth : Option Nat := none
  fontFamily : Option String := none
  htmlBase : String := ""
  toHtmlFail : Option String := none
  dpi : Option Rat := none
  sizeInchesW : Rat := 0
  sizeInchesH : Rat := 0
  pngBase : String := ""
  savefigFail : Option String := none
  deriving DecidableEq, Repr

/-- `fig.to_html(full_html=False, ...)`: the serialized markup reflects the
figure's current layout dimensions (which is why the source temporarily
overrides them before serializing). -/
def figToHtml (fig : Fig) : Except String String :=
  match fig.toHtmlFail with
  | some e => .error e
  | none =>
      .ok (fig.htmlBase ++ "|h=" ++ pyStrN fig.layoutHeight ++ "|w=" ++ pyStrN fig.layoutWidth)

/-- `fig.savefig(buf, format="png", bbox_inches="tight")`: the PNG bytes
reflect the figure's current size in inches. -/
def figSavefig (fig : Fig) : Except String String :=
  match fig.savefigFail with
  | some e => .error e
  | none =>
      .ok (fig.pngBase ++ "|size=" ++ toString fig.sizeInchesW ++ "x" ++ toString fig.sizeInchesH)

/-- Model of `base64.b64encode(..).decode("utf-8")`: an opaque injective encoding. -/
def b64encode (s : String) : String := "b64:" ++ s

/-- Model of a pandas DataFrame: ordered columns, row-major cell values,
and a flag for `to_html` raising. -/
structure DF where
  cols : List String
  rows : List (List String)
  toHtmlFail : Option String := none
  deriving DecidableEq, Repr

/-- `df.to_html(classes="table-hover table-striped", index=False, border=0,
table_id=..., escape=False)`: modelled as a deterministic function of the
data and the table id. -/
def dfToHtml (df : DF) (tableId : String) : Except String String :=
  match df.toHtmlFail with
  | some e => .error e
  | none =>
      let headRow := "<thead><tr>" ++ String.join (df.cols.map (fun c => "<th>" ++ c ++ "</th>")) ++ "</tr></thead>"
      let bodyRows := String.join (df.rows.map (fun r =>
        "<tr>" ++ String.join (r.map (fun v => "<td>" ++ v ++ "</td>")) ++ "</tr>"))
      .ok (s!"<table border=\"0\" class=\"dataframe table-hover table-striped\" id=\"{tableId}\">"
            ++ headRow ++ "<tbody>" ++ bodyRows ++ "</tbody></table>")

mutual
/-- A dominate HTML node: a tag with attributes and children, a text node,
or a raw-HTML fragment. -/
inductive Elem where
  | tag : String → List (String × String) → ElemList → Elem
  | txt : String → Elem
  | raw : String → Elem
  deriving DecidableEq, Repr
/-- Children of a node (a concrete list, kept mutual with `Elem` so that
all recursions below are structural). -/
inductive ElemList where
  | nil : ElemList
  | cons : Elem → ElemList → ElemList
  deriving DecidableEq, Repr
end

/-- Build an `ElemList` from a `List Elem`. -/
def EL : List Elem → ElemList
  | [] => .nil
  | e :: es => .cons e (EL es)

/-- Flatten an `ElemList` back to a `List Elem`. -/
def ElemList.toList : ElemList → List Elem
  | .nil => []
  | .cons e es => e :: es.toList

/-- Concatenation of the direct text children of a node list. -/
def ElemList.directText : ElemList → String
  | .nil => ""
  | .cons (.txt s) es => s ++ es.directText
  | .cons _ es => es.directText

/-- Does this attribute list carry `class` equal to `c`? -/
def hasClsAttr (attrs : List (String × String)) (c : String) : Bool :=
  attrs.any (fun p => p.1 == "class" && p.2 == c)

mutual
/-- Number of descendants (the node included) whose `class` attribute is exactly `c`. -/
def countCls (c : String) : Elem → Nat
  | .tag _ attrs kids => (if hasClsAttr attrs c then 1 else 0) + countClsList c kids
  | .txt _ => 0
  | .raw _ => 0
def countClsList (c : String) : ElemList → Nat
  | .nil => 0
  | .cons e es => countCls c e + countClsList c es
end

mutual
/-- The direct text of every descendant whose `class` is exactly `c`, in document order. -/
def clsTexts (c : String) : Elem → List String
  | .tag _ attrs kids =>
      (if hasClsAttr attrs c then [kids.directText] else []) ++ clsTextsList c kids
  | .txt _ => []
  | .raw _ => []
def clsTextsList (c : String) : ElemList → List String
  | .nil => []
  | .cons e es => clsTexts c e ++ clsTextsList c es
end

/-- The `style` attribute of a node (empty when absent). -/
def Elem.styleOf : Elem → String
  | .tag _ attrs _ => ((attrs.find? (fun p => p.1 == "style")).map Prod.snd).getD ""
  | _ => ""

/-- The `class` attribute of a node (empty when absent). -/
def Elem.clsOf : Elem → String
  | .tag _ attrs _ => ((attrs.find? (fun p => p.1 == "class")).map Prod.snd).getD ""
  | _ => ""

/-- The children of a node. -/
def Elem.kids : Elem → List Elem
  | .tag _ _ k => k.toList
  | _ => []

/-- The `align` normalization repeated in the source:
`if specified_align not in ("left", "right", "center"): specified_align = "center"`. -/
def normAlign (al : String) : String :=
  if al == "left" || al == "right" || al == "center" then al else "center"

/-- The `align_style` if/elif chain shared by all plot-rendering paths. -/
def alignStyle (al : String) : String :=
  if al == "center" then "display:flex; justify-content:center; align-items:center;"
  else if al == "left" then "display:flex; justify-content:flex-start; align-items:center;"
  else "display:flex; justify-content:flex-end; align-items:center;"

/-- The robust font family installed on plotly figures lacking one. -/
def defaultFontFamily : String :=
  "-apple-system, BlinkMacSystemFont, \"Segoe UI\", Roboto, \"Helvetica Neue\", Arial, sans-serif"

/-- The plotly branch of the plot dispatch in `Page.render` (dashboard.py,
lines 176-249).  Returns the produced element together with the post-render
state of the shared, mutable figure.  Note that the `update_layout` calls
restoring the original dimensions sit inside the same `try` block *after*
`fig.to_html`, so when serialization raises they are skipped. -/
def renderPlotlyPage (fig0 : Fig) (specH specW : Option Nat) (al : String) : Elem × Fig :=
  let fig := if truthyS fig0.fontFamily then fig0
             else { fig0 with fontFamily := some defaultFontFamily }
  let origH := fig.layoutHeight
  let origW := fig.layoutWidth
  let fig := match specH with | some h => { fig with layoutHeight := some h } | none => fig
  let fig := match specW with | some w => { fig with layoutWidth := some w } | none => fig
  match figToHtml fig with
  | .error e =>
      (Elem.tag "div" [] (EL [.txt s!"Plotly figure could not be rendered: {e}"]), fig)
  | .ok plotlyHtml =>
      let containerStyle := match specW with
        | some w => s!"width:{w}px;"
        | none => "width:100%;"
      let containerStyle := match specH with
        | some h => containerStyle ++ s!" height:{h}px;"
        | none => containerStyle
      let plotWrapped := s!"<div style=\"{containerStyle}\">" ++ plotlyHtml ++ "</div>"
      let alStyle := alignStyle (normAlign al)
      let outer := s!"<div style=\"{alStyle}\">" ++ plotWrapped ++ "</div>"
      let elem := Elem.tag "div" [] (EL [.raw outer])
      let fig := if specH.isSome then { fig with layoutHeight := origH } else fig
      let fig := if specW.isSome then { fig with layoutWidth := origW } else fig
      (elem, fig)

/-- The matplotlib branch of the plot dispatch in `Page.render` (dashboard.py,
lines 251-310).  The size restore sits after `savefig` inside the `try`, so a
`savefig` failure skips it (the `finally` only closes the buffer). -/
def renderMplPage (fig0 : Fig) (specH specW : Option Nat) (al : String) : Elem × Fig :=
  let doResize := fig0.dpi.isSome && (specH.isSome || specW.isSome)
  let origSize : Option (Rat × Rat) :=
    if doResize then some (fig0.sizeInchesW, fig0.sizeInchesH) else none
  let fig :=
    if doResize then
      let d := fig0.dpi.getD 1
      let newW := match specW with | some w => (w : Rat) / d | none => fig0.sizeInchesW
      let newH := match specH with | some h => (h : Rat) / d | none => fig0.sizeInchesH
      { fig0 with sizeInchesW := newW, sizeInchesH := newH }
    else fig0
  match figSavefig fig with
  | .error e =>
      (Elem.tag "div" [] (EL [.txt s!"Matplotlib figure could not be rendered: {e}"]), fig)
  | .ok png =>
      let fig := match origSize with
        | some os => { fig with sizeInchesW := os.1, sizeInchesH := os.2 }
        | none => fig
      let imgStyle := "max-width:100%;"
      let imgStyle := match specH with | some h => imgStyle ++ s!" height:{h}px;" | none => imgStyle
      let imgStyle := match specW with | some w => imgStyle ++ s!" width:{w}px;" | none => imgStyle
      let imgB64 := b64encode png
      let alStyle := alignStyle (normAlign al)
      (Elem.tag "div" [("style", alStyle)]
        (EL [.raw (s!"<img src=\"data:image/png;base64,{imgB64}\" style=\"{imgStyle}\">")]),
       fig)

/-- Plot dispatch of `Page.render`: the duck-typed capability check
`hasattr(fig, "to_html")` selects the branch. -/
def renderPlotPage (fig : Fig) (specH specW : Option Nat) (al : String) : Elem × Fig :=
  if fig.hasToHtml then renderPlotlyPage fig specH specW al
  else renderMplPage fig specH specW al

/-- Table dispatch of `Page.render`: `df.to_html` is wrapped in try/except,
failures become an inline placeholder element. -/
def renderTablePage (df : DF) (index : Nat) : Elem :=
  match dfToHtml df s!"table-{index}" with
  | .ok htmlTable => Elem.tag "div" [] (EL [.raw htmlTable])
  | .error e => Elem.tag "div" [] (EL [.txt s!"Table could not be rendered: {e}"])

/-- `os.path.basename`. -/
def basename (path : String) : String :=
  ((path.splitOn "/").getLast?).getD path

/-- Download dispatch shared by `Page.render` and `MiniPage.render`
(dashboard.py, lines 318-321 and 520-523): the link `href` is the original
source `file_path`; nothing is copied into the downloads area. -/
def renderDownloadEl (path : String) (label : Option String) : Elem :=
  let btnText := match label with
    | some l => if l == "" then basename path else l
    | none => basename path
  Elem.tag "div" []
    (EL [Elem.tag "a" [("href", path), ("class", "download-button"), ("download", "true")]
          (EL [.txt btnText])])

/-- `html.escape` on one character. -/
def htmlEscapeChar (c : Char) : String :=
  if c = '&' then "&amp;"
  else if c = '<' then "&lt;"
  else if c = '>' then "&gt;"
  else if c = '\"' then "&quot;"
  else if c = '\x27' then "&#x27;"
  else String.mk [c]

/-- `html.escape`. -/
def htmlEscape (s : String) : String := String.join (s.toList.map htmlEscapeChar)

/-- The `syntax`-kind dispatch (`add_syntax` blocks) shared by both
containers: a highlighted `<pre><code>` fragment. -/
def renderCodeEl (code lang : String) : Elem :=
  Elem.tag "div" [("class", "syntax-block")]
    (EL [.raw (s!"<pre class=\"syntax-block\"><code class=\"language-{lang}\">"
                ++ htmlEscape code ++ "</code></pre>")])

/-- The header dispatch: `header_tag = {1: h1, 2: h2, 3: h3, 4: h4}[level]`;
a level outside the dictionary raises `KeyError`. -/
def renderHeaderEl (text : String) (level : Nat) : Except String Elem :=
  if level = 1 ∨ level = 2 ∨ level = 3 ∨ level = 4 then
    .ok (Elem.tag s!"h{level}" [] (EL [.txt text]))
  else .error s!"KeyError: {level}"

/-- The placeholder token used by `split_paragraphs_preserving_math`. -/
def mathToken (i : Nat) : String := s!"__MATH_BLOCK_{i}__"

/-- `re.sub(r"\$\$([^$]+)\$\$", replace_math, text)`: scan left-to-right for
`$$`, at least one non-`$` character, `$$`; replace each match with a
placeholder and record the whole match.  The `fuel` argument (always called
with the length of the text, and each step consumes at least one character)
only makes the scanner structurally recursive. -/
def subDisplayGo : Nat → List Char → List String → List Char × List String
  | 0, cs, acc => (cs, acc)
  | _ + 1, [], acc => ([], acc)
  | fuel + 1, '$' :: '$' :: rest, acc =>
      let body := rest.takeWhile (fun c => c ≠ '$')
      let after := rest.drop body.length
      (match after with
       | '$' :: '$' :: tail =>
           if body.isEmpty then
             let (r, a) := subDisplayGo fuel ('$' :: rest) acc
             ('$' :: r, a)
           else
             let blockStr := "$$" ++ String.mk body ++ "$$"
             let (r, a) := subDisplayGo fuel tail (acc ++ [blockStr])
             ((mathToken acc.length).toList ++ r, a)
       | _ =>
           let (r, a) := subDisplayGo fuel ('$' :: rest) acc
           ('$' :: r, a))
  | fuel + 1, c :: rest, acc =>
      let (r, a) := subDisplayGo fuel rest acc
      (c :: r, a)

/-- `re.sub(r"\$([^$]+)\$", replace_math, text)`, run after the display pass
(same fuel device). -/
def subInlineGo : Nat → List Char → List String → List Char × List String
  | 0, cs, acc => (cs, acc)
  | _ + 1, [], acc => ([], acc)
  | fuel + 1, '$' :: rest, acc =>
      let body := rest.takeWhile (fun c => c ≠ '$')
      let after := rest.drop body.length
      (match after with
       | '$' :: tail =>
           if body.isEmpty then
             let (r, a) := subInlineGo fuel rest acc
             ('$' :: r, a)
           else
             let blockStr := "$" ++ String.mk body ++ "$"
             let (r, a) := subInlineGo fuel tail (acc ++ [blockStr])
             ((mathToken acc.length).toList ++ r, a)
       | _ =>
           let (r, a) := subInlineGo fuel rest acc
           ('$' :: r, a))
  | fuel + 1, c :: rest, acc =>
      let (r, a) := subInlineGo fuel rest acc
      (c :: r, a)

/-- `split_paragraphs_preserving_math` (dashboard.py, lines 16-43). -/
def splitParas (text : String) : List String :=
  let cs := text.toList
  let (cs1, blocks) := subDisplayGo cs.length cs []
  let (cs2, blocks) := subInlineGo cs1.length cs1 blocks
  let paras := (String.mk cs2).splitOn "\n\n"
  let restored := paras.map (fun para =>
    ((List.range blocks.length).foldl
      (fun p i => p.replace (mathToken i) (blocks.getD i "")) para).trim)
  restored.filter (fun p => p ≠ "")

/-- Text dispatch shared by both containers. -/
def renderTextEl (content : String) : Elem :=
  let paras := splitParas content
  if paras.isEmpty then Elem.tag "p" [] (EL [.txt content])
  else Elem.tag "div" [] (EL (paras.map (fun para => Elem.tag "p" [] (EL [.txt para]))))

mutual
/-- The tagged content of a stored element.  `add_plot` always stores the
4-tuple `(plot, height, width_px, align)`, mirrored by the `plot` fields. -/
inductive BlockKind where
  | header : String → Nat → BlockKind
  | textB : String → BlockKind
  | plot : Fig → Option Nat → Option Nat → String → BlockKind
  | table : DF → BlockKind
  | download : String → Option String → BlockKind
  | codeBlk : String → String → BlockKind
  | minipage : MiniPage → BlockKind
/-- `MiniPage.__init__(page_width=None)` plus its element list. -/
inductive MiniPage where
  | mk : Option Nat → BlockList → MiniPage
/-- `self.elements`, a list of `(kind, content, width)` entries; the
fraction `width` (0..1) is the per-block override. -/
inductive BlockList where
  | nil : BlockList
  | cons : BlockKind → Option Rat → BlockList → BlockList
end

/-- Append one element (`self.elements.append(...)`). -/
def BlockList.push : BlockList → BlockKind → Option Rat → BlockList
  | .nil, k, w => .cons k w .nil
  | .cons k0 w0 rest, k, w => .cons k0 w0 (rest.push k w)

/-- `AbstractPage.add_header`: validates `level in (1, 2, 3, 4)` at
construction time. -/
def add_header (els : BlockList) (text : String) (level : Nat) (width : Option Rat) :
    Except String BlockList :=
  if level = 1 ∨ level = 2 ∨ level = 3 ∨ level = 4 then
    .ok (els.push (.header text level) width)
  else .error "Header level must be 1, 2, 3, or 4"

/-- `AbstractPage.add_text`. -/
def add_text (els : BlockList) (text : String) (width : Option Rat) : BlockList :=
  els.push (.textB text) width

/-- `AbstractPage.add_plot(plot, width=None, height=None, width_px=None,
align="center")`: stores `("plot", (plot, height, width_px, align), width)`. -/
def add_plot (els : BlockList) (plot : Fig) (width : Option Rat)
    (height widthPx : Option Nat) (al : String) : BlockList :=
  els.push (.plot plot height widthPx al) width

/-- `AbstractPage.add_table(df, table_id=None, sortable=True, width=None)`:
stores `("table", df, width)` — `table_id` and `sortable` are dropped. -/
def add_table (els : BlockList) (df : DF) (tableId : Option String)
    (sortable : Bool) (width : Option Rat) : BlockList :=
  els.push (.table df) width

/-- The file system as the set of existing regular files (`os.path.isfile`). -/
def FileSys := List String

/-- `os.path.isfile`. -/
def isfile (fs : FileSys) (path : String) : Bool := fs.contains path

/-- `AbstractPage.add_download`: fails with `FileNotFoundError` if the path
does not name an existing file at append time; otherwise appends. -/
def add_download (fs : FileSys) (els : BlockList) (path : String)
    (label : Option String) (width : Option Rat) : Except String BlockList :=
  if isfile fs path then .ok (els.push (.download path label) width)
  else .error s!"File not found: {path}"

/-- `AbstractPage.add_minipage`. -/
def add_minipage (els : BlockList) (mp : MiniPage) (width : Option Rat) : BlockList :=
  els.push (.minipage mp) width

/-- `AbstractPage.add_syntax(code, language="python", width=None)`. -/
def add_code (els : BlockList) (code : String) (language : String) (width : Option Rat) :
    BlockList :=
  els.push (.codeBlk code language) width

/-- The per-block width-fraction wrapper shared by both containers:
`div(div(elem, style=f"width: {el_width * 100}%;"), style="display: flex; ...")`. -/
def wrapWidth (elem : Elem) (elWidth : Option Rat) : Elem :=
  match elWidth with
  | none => elem
  | some w =>
      let inner := Elem.tag "div" [("style", s!"width: {w * 100}%;")] (EL [elem])
      Elem.tag "div" [("style", "display: flex; justify-content: center; margin: 0 auto;")]
        (EL [inner])

/-- Plot dispatch of `MiniPage.render` (dashboard.py, lines 380-515).
`add_plot` stores the 4-tuple `(plot, height, width_px, align)`, but this
unpacker only handles tuple lengths 3 and 2; a 4-tuple falls to the `else`
branch, which binds `fig` to the whole tuple.  A tuple has no `to_html`
attribute, so the matplotlib path runs: `fig.get_dpi()` raises
`AttributeError` (caught, `dpi = None`), no resize is attempted, and
`fig.savefig(...)` raises `AttributeError`, caught into the inline
placeholder.  The stored figure object is never touched. -/
def renderPlotMini (fig : Fig) (specH specW : Option Nat) (al : String) : Elem × Fig :=
  (Elem.tag "div" []
    (EL [.txt "Matplotlib figure could not be rendered: \x27tuple\x27 object has no attribute \x27savefig\x27"]),
   fig)

/-- The row-container style of `MiniPage.render`. -/
def miniRowStyle (ew : Option Nat) : String :=
  s!"max-width: {pyStrN ew}px; margin: 0 auto; width: 100%;"

mutual
/-- `MiniPage.render(index, downloads_dir, relative_prefix, inherited_width,
inherited_marking, inherited_distribution)`.  The result is the single
`minipage-row` div; a propagating exception (the unguarded `df.to_html` of
the table branch) is the `.error` case. -/
def renderMini (mp : MiniPage) (i : Nat) (dl : Option String) (rp : String)
    (iw : Option Nat) (im idist : Option String) : Except String Elem :=
  match mp with
  | .mk pw els => do
      let ew := pyOrN pw iw
      let cells ← renderMiniElems els i dl rp ew im idist
      .ok (Elem.tag "div" [("class", "minipage-row"), ("style", miniRowStyle ew)] cells)

/-- The element loop of `MiniPage.render`: each rendered element is wrapped
in a `minipage-cell` div and appended to the row. -/
def renderMiniElems (els : BlockList) (i : Nat) (dl : Option String) (rp : String)
    (ew : Option Nat) (im idist : Option String) : Except String ElemList :=
  match els with
  | .nil => .ok .nil
  | .cons k w rest => do
      let e ← renderMiniBlock k i dl rp ew im idist
      let e := wrapWidth e w
      let cell := Elem.tag "div" [("class", "minipage-cell")] (EL [e])
      let more ← renderMiniElems rest i dl rp ew im idist
      .ok (.cons cell more)

/-- The kind dispatch of `MiniPage.render`.  Note the table branch calls
`df.to_html` with *no* try/except (dashboard.py, lines 516-519), so a table
serialization failure propagates and aborts the whole render; and the
resulting table element is a bare `raw`, not wrapped in a div. -/
def renderMiniBlock (k : BlockKind) (i : Nat) (dl : Option String) (rp : String)
    (ew : Option Nat) (im idist : Option String) : Except String Elem :=
  match k with
  | .header t lv => renderHeaderEl t lv
  | .textB s => .ok (renderTextEl s)
  | .plot fig h w al => .ok (renderPlotMini fig h w al).1
  | .table df => do
      let htmlTable ← dfToHtml df s!"table-{i}"
      .ok (.raw htmlTable)
  | .download p l => .ok (renderDownloadEl p l)
  | .codeBlk c lang => .ok (renderCodeEl c lang)
  | .minipage mp => renderMini mp i dl rp ew im idist
end

/-- The `shared_pos` style string of the marking overlay (dashboard.py,
lines 112-121). -/
def sharedPos : String :=
  "position: fixed; "
  ++ "left: calc(var(--sidebar-width, 240px) + var(--content-padding-x, 20px)); "
  ++ "width: calc(100vw - var(--sidebar-width, 240px) - 2*var(--content-padding-x, 20px)); "
  ++ "text-align: center; "
  ++ "background-color: #f8f9fa; "
  ++ "padding: 10px; "
  ++ "z-index: 1000; "
  ++ "font-weight: normal;"

/-- `effective_marking = self.marking if (self.marking is not None) else
inherited_marking` — an `is not None` test, not truthiness. -/
def resolveMarking (own inh : Option String) : Option String :=
  match own with
  | some m => some m
  | none => inh

/-- The overlay block of `Page.render` (dashboard.py, lines 107-138):
only when the effective marking is truthy, a fixed `floating-header` div and
a `floating-footer` div (distribution first when truthy, then the marking)
are prepended; otherwise nothing at all is emitted. -/
def pageOverlayElems (em ed : Option String) : List Elem :=
  if truthyS em then
    let mtext := em.getD ""
    let hdr := Elem.tag "div" [("class", "floating-header"), ("style", sharedPos ++ " top: 0;")]
      (EL [.txt mtext])
    let footerBlock :=
      (if truthyS ed then
        [Elem.tag "div" [("style", "margin-bottom: 4px; font-size: 10pt;")] (EL [.txt (ed.getD "")])]
       else [])
      ++ [Elem.tag "div" [] (EL [.txt mtext])]
    let ftr := Elem.tag "div" [("class", "floating-footer"), ("style", sharedPos ++ " bottom: 0;")]
      (EL footerBlock)
    [hdr, ftr]
  else []

mutual
/-- A `Page(slug, title, page_width=None, marking=None)` with its elements
and its ordered `children` sub-pages. -/
inductive Page where
  | mk : String → String → Option Nat → Option String → BlockList → PageList → Page
/-- An ordered list of pages. -/
inductive PageList where
  | nil : PageList
  | cons : Page → PageList → PageList
end

def Page.slug : Page → String | .mk s _ _ _ _ _ => s
def Page.title : Page → String | .mk _ t _ _ _ _ => t
def Page.pageWidth : Page → Option Nat | .mk _ _ w _ _ _ => w
def Page.marking : Page → Option String | .mk _ _ _ m _ _ => m
def Page.elements : Page → BlockList | .mk _ _ _ _ e _ => e
def Page.children : Page → PageList | .mk _ _ _ _ _ c => c

/-- The kind dispatch of `Page.render` (dashboard.py, lines 141-342).
Unlike `MiniPage.render`, the table branch catches failures into an inline
placeholder; but the `minipage` branch calls `content.render` with *no*
try/except, so an exception escaping a nested container propagates. -/
def renderPageBlock (k : BlockKind) (i : Nat) (dl : Option String) (rp : String)
    (ew : Option Nat) (em ed : Option String) : Except String Elem :=
  match k with
  | .header t lv => renderHeaderEl t lv
  | .textB s => .ok (renderTextEl s)
  | .plot fig h w al => .ok (renderPlotPage fig h w al).1
  | .table df => .ok (renderTablePage df i)
  | .download p l => .ok (renderDownloadEl p l)
  | .codeBlk c lang => .ok (renderCodeEl c lang)
  | .minipage mp => renderMini mp i dl rp ew em ed

/-- The element loop of `Page.render`. -/
def renderPageElems (els : BlockList) (i : Nat) (dl : Option String) (rp : String)
    (ew : Option Nat) (em ed : Option String) : Except String (List Elem) :=
  match els with
  | .nil => .ok []
  | .cons k w rest => do
      let e ← renderPageBlock k i dl rp ew em ed
      let e := wrapWidth e w
      let more ← renderPageElems rest i dl rp ew em ed
      .ok (e :: more)

/-- The wrapper style of `Page.render` (dashboard.py, lines 345-350). -/
def pageWrapperStyle (ew : Option Nat) : String :=
  s!"max-width: {pyStrN ew}px; "
  ++ "margin: 0 auto; width: 100%; "
  ++ "padding-top: 80px; padding-bottom: 80px; "
  ++ s!"--content-width: {pyStrN ew}px;"

/-- `Page.render` (dashboard.py, lines 92-352): resolves the effective
width, marking and distribution, optionally prepends the marking overlay,
renders the elements in order, and wraps everything in one width-bounded
div, returned as a one-element list. -/
def renderPage (p : Page) (i : Nat) (dl : Option String) (rp : String)
    (iw : Option Nat) (im idist : Option String) : Except String (List Elem) := do
  let ew := pyOrN p.pageWidth iw
  let em := resolveMarking p.marking im
  -- effective_distribution = getattr(self, "distribution", None) or inherited_distribution;
  -- Page.__init__ never sets a distribution attribute, so getattr always yields None.
  let ed := pyOrS none idist
  let overlays := pageOverlayElems em ed
  let blockElems ← renderPageElems p.elements i dl rp ew em ed
  .ok [Elem.tag "div" [("style", pageWrapperStyle ew)] (EL (overlays ++ blockElems))]

mutual
/-- The `has_active_child` helper nested in `Dashboard._render_sidebar`. -/
def hasActiveChild (pg : Page) (cur : Option String) : Bool :=
  match pg with
  | .mk _ _ _ _ _ children => hasActiveChildList children cur

def hasActiveChildList (ps : PageList) (cur : Option String) : Bool :=
  match ps with
  | .nil => false
  | .cons c rest =>
      (some c.slug == cur) || hasActiveChild c cur || hasActiveChildList rest cur
end

mutual
/-- `Dashboard._render_sidebar(pages, prefix, current_slug)` (dashboard.py,
lines 560-597), producing the flat list of nav entries/groups. -/
def renderSidebar (ps : PageList) (pref : String) (cur : Option String) : List Elem :=
  match ps with
  | .nil => []
  | .cons page rest => renderSidebarPage page pref cur :: renderSidebar rest pref cur

def renderSidebarPage (page : Page) (pref : String) (cur : Option String) : Elem :=
  match page with
  | .mk slug title _ _ _ children =>
      let pageHref := pref ++ slug ++ ".html"
      let isActive := some slug == cur
      let groupOpen := hasActiveChildList children cur
      let linkClasses := "nav-link"
        ++ (match children with | .nil => "" | .cons _ _ => " sidebar-parent")
        ++ (if isActive then " active" else "")
      match children with
      | .nil =>
          -- leaf entries use the literal "nav-link" class, not link_classes
          Elem.tag "a" [("class", "nav-link"), ("href", pageHref)] (EL [.txt title])
      | .cons _ _ =>
          let groupCls := "sidebar-group" ++ (if groupOpen || isActive then " open" else "")
          Elem.tag "div" [("class", groupCls)]
            (EL [Elem.tag "a" [("class", linkClasses), ("href", pageHref)]
                  (EL [Elem.tag "span" [("class", "sidebar-arrow")] .nil, .txt title]),
                 Elem.tag "div" [("class", "sidebar-children")]
                  (EL (renderSidebar children pref cur))])
end

/-- `_add_head_assets(head, rel_prefix, effective_width)` (dashboard.py,
lines 610-646): charset/viewport metas, css/js, MathJax config and
local-first loader, Prism, Plotly loader, CSS variables, and the
`.content-inner` max-width rule carrying the resolved width. -/
def headAssets (rp : String) (ew : Nat) : List Elem :=
  [ .raw "<meta charset=\"utf-8\" />",
    .raw "<meta name=\"viewport\" content=\"width=device-width, initial-scale=1\" />",
    Elem.tag "link" [("rel", "stylesheet"), ("href", rp ++ "assets/css/style.css")] .nil,
    Elem.tag "script" [("type", "text/javascript"), ("src", rp ++ "assets/js/script.js")] .nil,
    .raw ("<script>window.MathJax=\x7btex:\x7binlineMath:[[\x27$\x27,\x27$\x27],[\x27\\\\(\x27,\x27\\\\)\x27]],displayMath:[[\x27$$\x27,\x27$$\x27],[\x27\\\\[\x27,\x27\\\\]\x27]]\x7d\x7d;</script>"),
    .raw ("<script src=\"" ++ rp ++ "assets/vendor/mathjax/tex-svg.js\" "
      ++ "onerror=\"var s=document.createElement(\x27script\x27);"
      ++ "s.src=\x27https://cdn.jsdelivr.net/npm/mathjax@3/es5/tex-svg.js\x27;"
      ++ "document.head.appendChild(s);\"></script>"),
    Elem.tag "link" [("rel", "stylesheet"), ("href", rp ++ "assets/vendor/prism/prism-tomorrow.min.css")] .nil,
    Elem.tag "script" [("src", rp ++ "assets/vendor/prism/prism.min.js")] .nil,
    Elem.tag "script" [("src", rp ++ "assets/vendor/prism/components/prism-python.min.js")] .nil,
    Elem.tag "script" [("src", rp ++ "assets/vendor/prism/components/prism-javascript.min.js")] .nil,
    .raw ("<script src=\"" ++ rp ++ "assets/vendor/plotly/plotly.min.js\" "
      ++ "onerror=\"var s=document.createElement(\x27script\x27);"
      ++ "s.src=\x27https://cdn.plot.ly/plotly-2.32.0.min.js\x27;"
      ++ "document.head.appendChild(s);\"></script>"),
    .raw "<style>:root\x7b--sidebar-width:240px;--content-padding-x:20px;\x7d</style>",
    .raw (s!"<style>.content-inner \x7b max-width: {ew}px !important; \x7d</style>") ]

/-- `Dashboard(title="Dashboard", page_width=900, marking=None,
distribution=None)`. -/
structure Dashboard where
  title : String := "Dashboard"
  pages : PageList := .nil
  pageWidth : Option Nat := some 900
  marking : Option String := none
  distribution : Option String := none

/-- `Dashboard.add_page`. -/
def Dashboard.add_page (d : Dashboard) (p : Page) : Dashboard :=
  { d with pages := appendPage d.pages p }
where
  appendPage : PageList → Page → PageList
    | .nil, p => .cons p .nil
    | .cons q rest, p => .cons q (appendPage rest p)

/-- `effective_width = page.page_width or self.page_width or 900` as computed
in `write_page` and for the index document (dashboard.py, lines 650 and 682).
The chain always produces an integer; `getD` never falls through. -/
def headEffectiveWidth (pw dw : Option Nat) : Nat :=
  (pyOrN pw (pyOrN dw (some 900))).getD 900

/-- The document `write_page` produces for one page: head assets, sidebar
(with this page's slug active), and the page content, each rendered element
wrapped in a div. -/
def pageDoc (d : Dashboard) (page : Page) (dl : Option String) : Except String Elem := do
  let ew := headEffectiveWidth page.pageWidth d.pageWidth
  let contentEls ← renderPage page 0 dl "../" d.pageWidth d.marking d.distribution
  .ok (Elem.tag "document" [("title", page.title)]
    (EL [Elem.tag "head" [] (EL (headAssets "../" ew)),
         Elem.tag "body" [] (EL [
           Elem.tag "div" [("id", "sidebar")] (EL (
             [Elem.tag "a" [("href", "../index.html"), ("class", "sidebar-title")]
               (EL [.txt d.title])]
             ++ renderSidebar d.pages "" (some page.slug)
             ++ [Elem.tag "div" [("id", "sidebar-footer")]
                  (EL [Elem.tag "a" [("href", "../index.html")]
                    (EL [.txt "Produced by staticdash"])])])),
           Elem.tag "div" [("id", "content")] (EL [
             Elem.tag "div" [("class", "content-inner")]
               (EL (contentEls.map (fun el => Elem.tag "div" [] (EL [el]))))])])]))

mutual
/-- The recursive `write_page` closure of `Dashboard.publish`: writes this
page's file, then recurses into its children (depth-first). -/
def writePage (d : Dashboard) (dl : Option String) : Page → Except String (List (String × Elem))
  | .mk slug title pw m els cs => do
      let doc ← pageDoc d (Page.mk slug title pw m els cs) dl
      let rest ← writePages d dl cs
      .ok ((s!"pages/{slug}.html", doc) :: rest)

def writePages (d : Dashboard) (dl : Option String) : PageList → Except String (List (String × Elem))
  | .nil => .ok []
  | .cons p ps => do
      let fs1 ← writePage d dl p
      let fs2 ← writePages d dl ps
      .ok (fs1 ++ fs2)
end

/-- The index document of `Dashboard.publish` (dashboard.py, lines 680-704),
built from the *first* page with sidebar links through `pages/`. -/
def indexDoc (d : Dashboard) (p0 : Page) (dl : Option String) : Except String Elem := do
  let ew := headEffectiveWidth p0.pageWidth d.pageWidth
  let contentEls ← renderPage p0 0 dl "" d.pageWidth d.marking d.distribution
  .ok (Elem.tag "document" [("title", d.title)]
    (EL [Elem.tag "head" [] (EL (headAssets "" ew)),
         Elem.tag "body" [] (EL [
           Elem.tag "div" [("id", "sidebar")] (EL (
             [Elem.tag "a" [("href", "index.html"), ("class", "sidebar-title")]
               (EL [.txt d.title])]
             ++ renderSidebar d.pages "pages/" (some p0.slug)
             ++ [Elem.tag "div" [("id", "sidebar-footer")]
                  (EL [Elem.tag "a" [("href", "index.html")]
                    (EL [.txt "Produced by staticdash"])])])),
           Elem.tag "div" [("id", "content")] (EL [
             Elem.tag "div" [("class", "content-inner")]
               (EL (contentEls.map (fun el => Elem.tag "div" [] (EL [el]))))])])]))

/-- `Dashboard.publish(output_dir)` as the ordered list of `(path, document)`
writes it performs.  Directory creation and the asset `copytree` are
filesystem glue outside the content model; note `publish` creates the
`downloads` directory but nothing in the source ever writes into it.  After
the per-page loop, the index document unconditionally indexes
`self.pages[0]`, so an empty page list raises `IndexError` ("list index out
of range") there. -/
def Dashboard.publish (d : Dashboard) : Except String (List (String × Elem)) := do
  let dl := some "downloads"
  let pageFiles ← writePages d dl d.pages
  match d.pages with
  | .nil => .error "IndexError: list index out of range"
  | .cons p0 _ => do
      let idx ← indexDoc d p0 dl
      .ok (pageFiles ++ [("index.html", idx)])

mutual
/-- The slugs of a page subtree in depth-first preorder. -/
def preorderSlugs : Page → List String
  | .mk slug _ _ _ _ cs => slug :: preorderSlugsList cs

def preorderSlugsList : PageList → List String
  | .nil => []
  | .cons p ps => preorderSlugs p ++ preorderSlugsList ps
end

mutual
/-- Number of pages in a subtree. -/
def countPages : Page → Nat
  | .mk _ _ _ _ _ cs => 1 + countPagesList cs

def countPagesList : PageList → Nat
  | .nil => 0
  | .cons p ps => countPages p + countPagesList ps
end

/-- Modelled from the spec: the PDF backend (`publish_pdf`) is invoked by
`tutorial.py` but its implementation is not under `src/`; the flowable items
follow spec §4.4 (headings doubling as outline entries, paragraphs, raster
images, table flowables, page breaks). -/
inductive PdfItem where
  | heading : String → Nat → PdfItem
  | para : String → PdfItem
  | image : String → PdfItem
  | tableFlow : List String → List (List String) → PdfItem
  | codePara : String → String → PdfItem
  | pageBreak : PdfItem
  deriving DecidableEq, Repr

mutual
/-- Modelled from the spec: the per-kind block dispatch of the PDF backend
(§4.4): the same dispatch as HTML, except a Plot is always raster-embedded
regardless of its vector capability (`hasToHtml` is never consulted), and a
nested container's blocks are flattened into the sequential flow. -/
def pdfBlock (k : BlockKind) : List PdfItem :=
  match k with
  | .header t lv => [.heading t lv]
  | .textB s => (splitParas s).map PdfItem.para
  | .plot fig _ _ _ =>
      (match figSavefig fig with
       | .ok png => [.image (b64encode png)]
       | .error e => [.para s!"Matplotlib figure could not be rendered: {e}"])
  | .table df => [.tableFlow df.cols df.rows]
  | .download p l => [.para (((pyOrS l (some (basename p))).getD ""))]
  | .codeBlk c lang => [.codePara c lang]
  | .minipage mp => pdfMini mp

def pdfMini (mp : MiniPage) : List PdfItem :=
  match mp with
  | .mk _ els => pdfBlocks els

def pdfBlocks (els : BlockList) : List PdfItem :=
  match els with
  | .nil => []
  | .cons k _ rest => pdfBlock k ++ pdfBlocks rest
end

mutual
/-- Modelled from the spec (§4.4): one page's contribution to the linear
flow — a heading at a depth-derived level, its blocks, then its children
recursively. -/
def pdfPage (depth : Nat) : Page → List PdfItem
  | .mk _ title _ _ els cs =>
      PdfItem.heading title (depth + 1) :: pdfBlocks els ++ pdfChildren (depth + 1) cs

def pdfChildren (depth : Nat) : PageList → List PdfItem
  | .nil => []
  | .cons p ps => pdfPage depth p ++ pdfChildren depth ps
end

/-- Modelled from the spec (§4.4): an explicit page break after each
top-level page's subtree. -/
def pdfTop : PageList → List PdfItem
  | .nil => []
  | .cons p ps => pdfPage 0 p ++ [.pageBreak] ++ pdfTop ps

/-- Modelled from the spec (§4.4): optional front matter (title page) before
the first page's content, then the linearized tree. -/
def publishPdf (d : Dashboard) (includeTitlePage : Bool) (author affiliation : String) :
    List PdfItem :=
  (if includeTitlePage then
    [PdfItem.para d.title, PdfItem.para author, PdfItem.para affiliation, PdfItem.pageBreak]
   else [])
  ++ pdfTop d.pages

/-- The `(text, level)` of every heading item, in emission order. -/
def headingsOf : List PdfItem → List (String × Nat)
  | [] => []
  | .heading t l :: rest => (t, l) :: headingsOf rest
  | _ :: rest => headingsOf rest

/-- Modelled from the spec (§4.4): outline entries mirror the emitted
headings in order, with each entry's depth clamped so it never exceeds the
preceding entry's depth plus one. -/
def outlineClamp : List (String × Nat) → Nat → List (String × Nat)
  | [], _ => []
  | (t, l) :: rest, prev =>
      let lc := min l (prev + 1)
      (t, lc) :: outlineClamp rest lc

/-- The hierarchical outline of a produced PDF. -/
def outlineOf (items : List PdfItem) : List (String × Nat) :=
  outlineClamp (headingsOf items) 0

mutual
/-- Number of `raw` descendants whose content is exactly `s`. -/
def countRawEq (s : String) : Elem → Nat
  | .tag _ _ kids => countRawEqList s kids
  | .txt _ => 0
  | .raw r => if r == s then 1 else 0
def countRawEqList (s : String) : ElemList → Nat
  | .nil => 0
  | .cons e es => countRawEq s e + countRawEqList s es
end

/-- Kernel-reducible string prefix test. -/
def strStarts (s pre : String) : Bool := pre.toList.isPrefixOf s.toList

mutual
/-- Number of `txt` descendants whose content starts with `pre`. -/
def countTxtPre (pre : String) : Elem → Nat
  | .tag _ _ kids => countTxtPreList pre kids
  | .txt s => if strStarts s pre then 1 else 0
  | .raw _ => 0
def countTxtPreList (pre : String) : ElemList → Nat
  | .nil => 0
  | .cons e es => countTxtPre pre e + countTxtPreList pre es
end

mutual
/-- The `href` attributes of every descendant whose `class` is exactly `c`,
in document order. -/
def hrefsOfCls (c : String) : Elem → List String
  | .tag _ attrs kids =>
      (if hasClsAttr attrs c then
        [(((attrs.find? (fun p => p.1 == "href")).map Prod.snd).getD "")]
       else []) ++ hrefsOfClsList c kids
  | .txt _ => []
  | .raw _ => []
def hrefsOfClsList (c : String) : ElemList → List String
  | .nil => []
  | .cons e es => hrefsOfCls c e ++ hrefsOfClsList c es
end

mutual
/-- The `style` attributes of every descendant whose `class` is exactly `c`,
in document order. -/
def stylesOfCls (c : String) : Elem → List String
  | .tag _ attrs kids =>
      (if hasClsAttr attrs c then
        [(((attrs.find? (fun p => p.1 == "style")).map Prod.snd).getD "")]
       else []) ++ stylesOfClsList c kids
  | .txt _ => []
  | .raw _ => []
def stylesOfClsList (c : String) : ElemList → List String
  | .nil => []
  | .cons e es => stylesOfCls c e ++ stylesOfClsList c es
end

/-- Sum of an observable over a list of written files. -/
def countClsFiles (c : String) (files : List (String × Elem)) : Nat :=
  (files.map (fun f => countCls c f.2)).sum

/-! Concrete fixtures used to evaluate the pipeline end to end. -/

/-- A page holding one download block for an existing source file. -/
def pageDl : Page :=
  .mk "dl" "Downloads" none none (.cons (.download "report.txt" (some "Report")) none .nil) .nil

/-- A dashboard holding only `pageDl` (all other fields defaulted). -/
def dashDl : Dashboard := { pages := .cons pageDl .nil }

/-- A page with no marking of its own, holding one (empty) mini-container. -/
def pageNoM : Page :=
  .mk "nom" "NoMarking" none none (.cons (.minipage (.mk none .nil)) none .nil) .nil

/-- A child page with no marking of its own. -/
def childN : Page := .mk "child" "Child" none none .nil .nil

/-- A parent page overriding the marking to "Y", with `childN` as sub-page. -/
def parentY : Page := .mk "parent" "Parent" none (some "Y") .nil (.cons childN .nil)

/-- Dashboard with global marking "X" over `pageNoM` and `parentY`. -/
def dashX : Dashboard :=
  { marking := some "X", pages := .cons pageNoM (.cons parentY .nil) }

/-- Dashboard with no marking anywhere. -/
def dashNoM : Dashboard := { pages := .cons pageNoM .nil }

/-- 3-level nesting with an explicit width only at the root page. -/
def pageW3root : Page :=
  .mk "w" "Widths" (some 800) none
    (.cons (.minipage (.mk none (.cons (.minipage (.mk none .nil)) none .nil))) none .nil) .nil

/-- 3-level nesting with an explicit width only at the middle container. -/
def pageW3mid : Page :=
  .mk "w" "Widths" none none
    (.cons (.minipage (.mk (some 500) (.cons (.minipage (.mk none .nil)) none .nil))) none .nil) .nil

/-- 3-level nesting with no explicit width anywhere. -/
def pageW3none : Page :=
  .mk "w" "Widths" none none
    (.cons (.minipage (.mk none (.cons (.minipage (.mk none .nil)) none .nil))) none .nil) .nil

/-- A healthy plotly-capable figure. -/
def figA : Fig := { hasToHtml := true, htmlBase := "PLOTA" }

/-- A deliberately broken figure: serialization raises "boom". -/
def figB : Fig := { hasToHtml := true, toHtmlFail := some "boom" }

/-- A second healthy plotly-capable figure. -/
def figC : Fig := { hasToHtml := true, htmlBase := "PLOTC" }

/-- Page with three plot blocks, the middle one broken. -/
def pageP5 : Page :=
  .mk "plots" "Plots" none none
    (.cons (.plot figA none none "center") none
      (.cons (.plot figB none none "center") none
        (.cons (.plot figC none none "center") none .nil))) .nil

/-- The exact wrapped markup a dimension-less centered plotly plot produces. -/
def plotOuter (base : String) : String :=
  "<div style=\"display:flex; justify-content:center; align-items:center;\">"
    ++ "<div style=\"width:100%;\">" ++ base ++ "|h=None|w=None</div></div>"

/-- A data frame whose `to_html` raises. -/
def dfBad : DF := { cols := ["a"], rows := [["1"]], toHtmlFail := some "tbl boom" }

/-- A mini-container holding the failing table. -/
def miniBad : MiniPage := .mk none (.cons (.table dfBad) none .nil)

/-- A page holding `miniBad` plus a healthy plot before and after it. -/
def pgBadMini : Page :=
  .mk "bad" "Bad" none none
    (.cons (.plot figA none none "center") none
      (.cons (.minipage miniBad) none
        (.cons (.plot figC none none "center") none .nil))) .nil

/-- Figure with recorded original height 100 whose serialization raises. -/
def figLeak : Fig := { hasToHtml := true, layoutHeight := some 100, toHtmlFail := some "boom" }

/-- Figure with recorded original height 100 that serializes fine. -/
def figOk6 : Fig := { hasToHtml := true, layoutHeight := some 100, htmlBase := "P6" }

/-- A raster-only (matplotlib) figure that serializes fine. -/
def figMpl : Fig :=
  { hasToHtml := false, dpi := some 100, sizeInchesW := 4, sizeInchesH := 3, pngBase := "IMG" }

/-- Is an `Except` value a success? -/
def exceptIsOk {α : Type} : Except String α → Bool
  | .ok _ => true
  | .error _ => false

/-- The P / A(A1) / B page tree of the traversal-order fixture. -/
def pageA1 : Page := .mk "a1" "A1" none none .nil .nil
def pageA : Page := .mk "a" "A" none none .nil (.cons pageA1 .nil)
def pageB : Page := .mk "b" "B" none none .nil .nil
def pageP : Page := .mk "p" "P" none none .nil (.cons pageA (.cons pageB .nil))

/-- Dashboard with the single top-level page `pageP`. -/
def dashC8 : Dashboard := { pages := .cons pageP .nil }

/-- Mutual structural induction for `Page`/`PageList`. -/
theorem pageListInduction (P : Page → Prop) (Q : PageList → Prop)
    (hmk : ∀ slug title pw m els cs, Q cs → P (.mk slug title pw m els cs))
    (hnil : Q .nil)
    (hcons : ∀ p ps, P p → Q ps → Q (.cons p ps)) :
    (∀ p, P p) ∧ (∀ ps, Q ps) :=
  ⟨fun p => Page.rec (motive_1 := P) (motive_2 := Q) hmk hnil hcons p,
   fun ps => PageList.rec (motive_1 := P) (motive_2 := Q) hmk hnil hcons ps⟩

/-- Structural induction for `BlockList` alone (trivial motives for the
mutually defined `BlockKind` and `MiniPage`). -/
theorem blockListInduction (P : BlockList → Prop)
    (hnil : P .nil) (hcons : ∀ k w rest, P rest → P (.cons k w rest)) :
    ∀ els, P els := by
  intro els
  refine BlockList.rec (motive_1 := fun _ => True) (motive_2 := fun _ => True) (motive_3 := P)
    ?_ ?_ ?_ ?_ ?_ ?_ ?_ ?_ ?_ ?_ els <;>
    intros <;> first | exact hnil | (apply hcons; assumption) | trivial

/-- C2: publishing a dashboard with zero pages runs the per-page loop
vacuously and then hits the unguarded `self.pages[0]` index for the entry
document, raising `IndexError` — not a guarded `EmptyDashboard` error. -/
theorem c2_publish_empty_is_index_fault :
    Dashboard.publish { pages := .nil } = .error "IndexError: list index out of range" := rfl

/-- C9: `add_header` succeeds exactly for level in {1,2,3,4} (appending the
header block) and raises the invalid-level `ValueError` otherwise; a valid
level `n` renders as a heading tag of semantic rank `n`. -/
theorem c9_header_levels :
    (∀ els text level width, ¬(level = 1 ∨ level = 2 ∨ level = 3 ∨ level = 4) →
      add_header els text level width = .error "Header level must be 1, 2, 3, or 4")
    ∧ (∀ els text level width, (level = 1 ∨ level = 2 ∨ level = 3 ∨ level = 4) →
      add_header els text level width = .ok (els.push (.header text level) width))
    ∧ (∀ text level, (level = 1 ∨ level = 2 ∨ level = 3 ∨ level = 4) →
      renderHeaderEl text level = .ok (Elem.tag s!"h{level}" [] (EL [.txt text]))) := by
  refine ⟨fun els text level width h => ?_, fun els text level width h => ?_,
    fun text level h => ?_⟩
  · unfold add_header; rw [if_neg h]
  · unfold add_header; rw [if_pos h]
  · unfold renderHeaderEl; rw [if_pos h]

/-- Witness for C9 at levels 5 and 2. -/
theorem c9_header_levels_witness :
    add_header .nil "T" 5 none = .error "Header level must be 1, 2, 3, or 4"
    ∧ add_header .nil "T" 2 none = .ok (BlockList.push .nil (.header "T" 2) none)
    ∧ renderHeaderEl "T" 2 = .ok (Elem.tag "h2" [] (EL [.txt "T"])) :=
  ⟨c9_header_levels.1 .nil "T" 5 none (by decide),
   c9_header_levels.2.1 .nil "T" 2 none (by decide),
   c9_header_levels.2.2 "T" 2 (by decide)⟩

/-- C10: `add_table` drops its `table_id` and `sortable` arguments: two
calls differing only there append identical blocks, and the rendered
output of the resulting element lists is identical. -/
theorem c10_add_table_ignores_params (els : BlockList) (df : DF)
    (id1 id2 : Option String) (s1 s2 : Bool) (width : Option Rat)
    (i : Nat) (dl : Option String) (rp : String) (ew : Option Nat) (em ed : Option String) :
    add_table els df id1 s1 width = add_table els df id2 s2 width
    ∧ renderPageElems (add_table els df id1 s1 width) i dl rp ew em ed
      = renderPageElems (add_table els df id2 s2 width) i dl rp ew em ed :=
  ⟨rfl, rfl⟩

/-- C6 (amended): the explicit pixel dimensions are applied to the figure
before serializing (the serialized markup reflects them) and restored
afterwards when serialization succeeds — for the plotly layout dimensions
and the matplotlib size in inches alike; when serialization fails the
restore is skipped (see the counterexample). -/
theorem c6_dimensions_restored_on_success :
    (∀ fig sh sw al, fig.toHtmlFail = none →
      (renderPlotPage fig sh sw al).2.layoutHeight = fig.layoutHeight
      ∧ (renderPlotPage fig sh sw al).2.layoutWidth = fig.layoutWidth)
    ∧ (∀ fig sh sw al, fig.hasToHtml = false → fig.savefigFail = none →
      (renderPlotPage fig sh sw al).2.sizeInchesW = fig.sizeInchesW
      ∧ (renderPlotPage fig sh sw al).2.sizeInchesH = fig.sizeInchesH)
    ∧ (renderPlotPage figOk6 (some 50) none "center").1
      = Elem.tag "div" []
          (EL [.raw ("<div style=\"display:flex; justify-content:center; align-items:center;\">"
            ++ "<div style=\"width:100%; height:50px;\">P6|h=50|w=None</div></div>")])
    ∧ (renderPlotPage figOk6 (some 50) none "center").2.layoutHeight = some 100 := by
  refine ⟨fun fig sh sw al h => ?_, fun fig sh sw al hb h => ?_, rfl, rfl⟩
  · obtain ⟨ht, lh, lw, ff, hb, thf, dpi, siw, sih, pb, svf⟩ := fig
    simp only at h
    subst h
    by_cases hht : ht
    · by_cases hf : truthyS ff <;>
        rcases sh with _ | hv <;> rcases sw with _ | wv <;>
        simp [renderPlotPage, renderPlotlyPage, figToHtml, hht, hf]
    · rcases svf with _ | e <;>
        rcases sh with _ | hv <;> rcases sw with _ | wv <;>
        rcases dpi with _ | d <;>
        simp [renderPlotPage, renderMplPage, figSavefig, hht]
  · obtain ⟨ht, lh, lw, ff, hbb, thf, dpi, siw, sih, pb, svf⟩ := fig
    simp only at hb h
    subst hb; subst h
    rcases sh with _ | hv <;> rcases sw with _ | wv <;>
      rcases dpi with _ | d <;>
      simp [renderPlotPage, renderMplPage, figSavefig]

/-- Counterexample to C6 as stated: when serialization of the figure fails,
the temporarily applied height is *not* restored — after rendering the
caller-held figure keeps the overridden height 50, though it was 100 before,
while the inline placeholder is emitted. -/
theorem c6_dimension_leak_on_failure :
    (renderPlotPage figLeak (some 50) none "center").2.layoutHeight = some 50
    ∧ figLeak.layoutHeight = some 100
    ∧ countTxtPre "Plotly figure could not be rendered:" (renderPlotPage figLeak (some 50) none "center").1 = 1 :=
  ⟨rfl, rfl, by decide⟩

/-- Witness for C6 at a plotly and a matplotlib figure. -/
theorem c6_dimensions_restored_on_success_witness :
    ((renderPlotPage figOk6 (some 50) none "center").2.layoutHeight = some 100
      ∧ (renderPlotPage figOk6 (some 50) none "center").2.layoutWidth = none)
    ∧ ((renderPlotPage figMpl (some 50) none "center").2.sizeInchesW = 4
      ∧ (renderPlotPage figMpl (some 50) none "center").2.sizeInchesH = 3) :=
  ⟨c6_dimensions_restored_on_success.1 figOk6 (some 50) none "center" rfl,
   c6_dimensions_restored_on_success.2.1 figMpl (some 50) none "center" rfl rfl⟩

/-- C5 (amended): in a Page, plot and table rendering failures are isolated
into inline placeholders containing the error while the other blocks render
normally (the three-figure fixture yields exactly one placeholder and two
rendered plots); in a MiniPage, plot blocks are likewise isolated (indeed
every stored plot renders as a placeholder, since the 4-tuple payload is
never unpacked), but a table serialization failure propagates and aborts the
whole render (see the counterexample). -/
theorem c5_page_isolation :
    (∀ fig sh sw al i dl rp ew em ed,
      renderPageBlock (.plot fig sh sw al) i dl rp ew em ed = .ok (renderPlotPage fig sh sw al).1)
    ∧ (∀ df i emsg, dfToHtml df s!"table-{i}" = .error emsg →
      renderTablePage df i = Elem.tag "div" [] (EL [.txt s!"Table could not be rendered: {emsg}"]))
    ∧ (∃ es, renderPage pageP5 0 none "" (some 900) none none = .ok es
      ∧ (es.map (countTxtPre "Plotly figure could not be rendered:")).sum = 1
      ∧ (es.map (countRawEq (plotOuter "PLOTA"))).sum = 1
      ∧ (es.map (countRawEq (plotOuter "PLOTC"))).sum = 1)
    ∧ (∀ fig sh sw al i dl rp ew em ed,
      renderMiniBlock (.plot fig sh sw al) i dl rp ew em ed = .ok (renderPlotMini fig sh sw al).1
      ∧ countTxtPre "Matplotlib figure could not be rendered:" (renderPlotMini fig sh sw al).1 = 1) := by
  refine ⟨fun _ _ _ _ _ _ _ _ _ _ => rfl, fun df i emsg h => ?_, ?_,
    fun _ _ _ _ _ _ _ _ _ _ => ⟨rfl, by rfl⟩⟩
  · unfold renderTablePage; rw [h]
  · exact ⟨_, rfl, by decide, by decide, by decide⟩

/-- Counterexample to C5 as stated: a failing table inside a mini-container
aborts the mini-container's render, and with it the whole page render — a
total failure, not an inline placeholder. -/
theorem c5_minipage_table_aborts_page :
    renderMini miniBad 0 none "" none none none = .error "tbl boom"
    ∧ renderPage pgBadMini 0 none "" (some 900) none none = .error "tbl boom" :=
  ⟨rfl, rfl⟩

/-- Witness for C5 at the failing data frame `dfBad`. -/
theorem c5_page_isolation_witness :
    dfToHtml dfBad "table-0" = .error "tbl boom"
    ∧ renderTablePage dfBad 0 = Elem.tag "div" [] (EL [.txt "Table could not be rendered: tbl boom"]) :=
  ⟨rfl, c5_page_isolation.2.1 dfBad 0 "tbl boom" rfl⟩

/-- Helper: every cell emitted by the MiniPage element loop carries the
`minipage-cell` class. -/
theorem renderMiniElems_cells (els : BlockList) :
    ∀ i dl rp ew im idist cells, renderMiniElems els i dl rp ew im idist = .ok cells →
      cells.toList.all (fun c => c.clsOf == "minipage-cell") = true := by
  refine blockListInduction
    (fun els => ∀ i dl rp ew im idist cells, renderMiniElems els i dl rp ew im idist = .ok cells →
      cells.toList.all (fun c => c.clsOf == "minipage-cell") = true) ?_ ?_ els
  · intro i dl rp ew im idist cells h
    unfold renderMiniElems at h
    cases h
    rfl
  · intro k w rest ih i dl rp ew im idist cells h
    unfold renderMiniElems at h
    cases hb : renderMiniBlock k i dl rp ew im idist with
    | error e =>
      rw [hb] at h
      simp only [Bind.bind, Except.bind] at h
      exact Except.noConfusion h
    | ok e =>
      rw [hb] at h
      cases hr : renderMiniElems rest i dl rp ew im idist with
      | error e2 =>
        rw [hr] at h
        simp only [Bind.bind, Except.bind] at h
        exact Except.noConfusion h
      | ok more =>
        rw [hr] at h
        simp only [Bind.bind, Except.bind, pure, Except.pure, Except.ok.injEq] at h
        subst h
        simpa [ElemList.toList, Elem.clsOf] using ih i dl rp ew im idist more hr

/-- Helper: the shape of a successful `Page.render` — overlay block first
(driven by the resolved marking), then the rendered elements, inside one
wrapper div bounded by the resolved width. -/
theorem renderPage_shape (p : Page) (i : Nat) (dl : Option String) (rp : String)
    (iw : Option Nat) (im idist : Option String) :
    ∀ es, renderPage p i dl rp iw im idist = .ok es →
      ∃ bp, renderPageElems p.elements i dl rp (pyOrN p.pageWidth iw)
              (resolveMarking p.marking im) (pyOrS none idist) = .ok bp
        ∧ es = [Elem.tag "div" [("style", pageWrapperStyle (pyOrN p.pageWidth iw))]
            (EL (pageOverlayElems (resolveMarking p.marking im) (pyOrS none idist) ++ bp))] := by
  intro es h
  simp only [renderPage] at h
  cases hb : renderPageElems p.elements i dl rp (pyOrN p.pageWidth iw)
      (resolveMarking p.marking im) (pyOrS none idist) with
  | error e =>
    rw [hb] at h
    simp only [Bind.bind, Except.bind] at h
    exact Except.noConfusion h
  | ok bp =>
    rw [hb] at h
    simp only [Bind.bind, Except.bind, pure, Except.pure, Except.ok.injEq] at h
    exact ⟨bp, rfl, h.symm⟩

/-- Helper: a successful `MiniPage.render` returns one `minipage-row` div
whose style carries the resolved width and whose children are the cells. -/
theorem renderMini_shape (pw : Option Nat) (els : BlockList) (i : Nat) (dl : Option String)
    (rp : String) (iw : Option Nat) (im idist : Option String) :
    ∀ e, renderMini (.mk pw els) i dl rp iw im idist = .ok e →
      ∃ cells, renderMiniElems els i dl rp (pyOrN pw iw) im idist = .ok cells
        ∧ e = Elem.tag "div" [("class", "minipage-row"), ("style", miniRowStyle (pyOrN pw iw))] cells := by
  intro e h
  simp only [renderMini] at h
  cases hc : renderMiniElems els i dl rp (pyOrN pw iw) im idist with
  | error e2 =>
    rw [hc] at h
    simp only [Bind.bind, Except.bind] at h
    exact Except.noConfusion h
  | ok cells =>
    rw [hc] at h
    simp only [Bind.bind, Except.bind, pure, Except.pure, Except.ok.injEq] at h
    exact ⟨cells, rfl, h.symm⟩

/-- C3 (amended): for every rendered page, the overlay block is present iff
the resolved marking (the page's own when set, else the render-time
inherited value — which `publish` always passes as the *dashboard* marking,
so a parent page's override does not cascade into its children's files) is
truthy, with overlay text equal to that resolved value; a falsy resolved
marking yields no overlay elements at all; and a mini-container never emits
a marking overlay of its own. -/
theorem c3_marking_overlay :
    (∀ p i dl rp iw im idist es, renderPage p i dl rp iw im idist = .ok es →
      ∃ bp, es = [Elem.tag "div" [("style", pageWrapperStyle (pyOrN p.pageWidth iw))]
        (EL (pageOverlayElems (resolveMarking p.marking im) (pyOrS none idist) ++ bp))])
    ∧ (∀ em ed, truthyS em = true →
      countClsList "floating-header" (EL (pageOverlayElems em ed)) = 1
      ∧ countClsList "floating-footer" (EL (pageOverlayElems em ed)) = 1
      ∧ clsTextsList "floating-header" (EL (pageOverlayElems em ed)) = [em.getD ""])
    ∧ (∀ em ed, truthyS em = false → pageOverlayElems em ed = [])
    ∧ (∀ pw els i dl rp iw im idist e, renderMini (.mk pw els) i dl rp iw im idist = .ok e →
      e.clsOf = "minipage-row" ∧ e.kids.all (fun c => c.clsOf == "minipage-cell") = true)
    ∧ (∃ fs, Dashboard.publish dashX = .ok fs
      ∧ fs.map (fun f => clsTexts "floating-header" f.2) = [["X"], ["Y"], ["X"], ["X"]]
      ∧ countClsFiles "floating-footer" fs = 4)
    ∧ (∃ fs, Dashboard.publish dashNoM = .ok fs
      ∧ countClsFiles "floating-header" fs = 0 ∧ countClsFiles "floating-footer" fs = 0) := by
  refine ⟨?_, ?_, ?_, ?_, ?_, ?_⟩
  · intro p i dl rp iw im idist es h
    obtain ⟨bp, _, hes⟩ := renderPage_shape p i dl rp iw im idist es h
    exact ⟨bp, hes⟩
  · intro em ed h
    by_cases hd : truthyS ed <;>
      simp [pageOverlayElems, h, hd, countClsList, countCls, hasClsAttr,
        clsTextsList, clsTexts, EL, ElemList.directText]
  · intro em ed h
    simp [pageOverlayElems, h]
  · intro pw els i dl rp iw im idist e h
    obtain ⟨cells, hc, he⟩ := renderMini_shape pw els i dl rp iw im idist e h
    subst he
    refine ⟨rfl, ?_⟩
    simpa [Elem.kids] using renderMiniElems_cells els i dl rp (pyOrN pw iw) im idist cells hc
  · exact ⟨_, rfl, by decide, by decide⟩
  · exact ⟨_, rfl, by decide, by decide⟩

/-- Counterexample to C3 as stated: under dashboard marking "X", a parent
page overriding to "Y" with a child page left at `marking=None`, the child's
file renders overlay "X" (the dashboard value), while the ancestor page's
resolved value — which the claim says the child inherits — is "Y". -/
theorem c3_child_page_ignores_ancestor_marking :
    (Dashboard.publish dashX).map (fun fs => fs.map (fun f => (f.1, clsTexts "floating-header" f.2)))
      = .ok [("pages/nom.html", ["X"]), ("pages/parent.html", ["Y"]),
             ("pages/child.html", ["X"]), ("index.html", ["X"])]
    ∧ childN.marking = none
    ∧ resolveMarking childN.marking (resolveMarking parentY.marking dashX.marking) = some "Y" :=
  ⟨rfl, rfl, rfl⟩

/-- Witness for C3 at concrete markings and a concrete empty mini-container. -/
theorem c3_marking_overlay_witness :
    (countClsList "floating-header" (EL (pageOverlayElems (some "X") none)) = 1
      ∧ countClsList "floating-footer" (EL (pageOverlayElems (some "X") none)) = 1
      ∧ clsTextsList "floating-header" (EL (pageOverlayElems (some "X") none)) = ["X"])
    ∧ pageOverlayElems none none = []
    ∧ ((Elem.tag "div" [("class", "minipage-row"), ("style", miniRowStyle (some 5))] .nil).clsOf
        = "minipage-row"
      ∧ (Elem.tag "div" [("class", "minipage-row"), ("style", miniRowStyle (some 5))] .nil).kids.all
          (fun c => c.clsOf == "minipage-cell") = true) :=
  ⟨c3_marking_overlay.2.1 (some "X") none rfl,
   c3_marking_overlay.2.2.1 none none rfl,
   c3_marking_overlay.2.2.2.1 (some 5) .nil 0 none "" none none none
     (Elem.tag "div" [("class", "minipage-row"), ("style", miniRowStyle (some 5))] .nil) rfl⟩

/-- C4: the effective render width is the container's own width when set
(Python `or`, so a nonzero integer), else the inherited width — which the
recursion passes down as the parent's effective width — else, at the
publish boundary, the global default 900 (the `Dashboard` constructor
default and the explicit `or 900` of the head-asset width); in the 3-level
fixture with a width only at the root, all three containers carry the
root's width. -/
theorem c4_effective_width_cascade :
    (∀ n inh, n ≠ 0 → pyOrN (some n) inh = some n)
    ∧ (∀ inh, pyOrN none inh = inh)
    ∧ (∀ pw dw, headEffectiveWidth pw dw = (pyOrN pw (pyOrN dw (some 900))).getD 900)
    ∧ headEffectiveWidth none none = 900
    ∧ (∀ pw els i dl rp iw im idist e, renderMini (.mk pw els) i dl rp iw im idist = .ok e →
      e.styleOf = miniRowStyle (pyOrN pw iw))
    ∧ (∃ es, renderPage pageW3root 0 none "" (some 900) none none = .ok es
      ∧ es.map Elem.styleOf = [pageWrapperStyle (some 800)]
      ∧ es.map (stylesOfCls "minipage-row") = [[miniRowStyle (some 800), miniRowStyle (some 800)]])
    ∧ (∃ es, renderPage pageW3mid 0 none "" (some 900) none none = .ok es
      ∧ es.map Elem.styleOf = [pageWrapperStyle (some 900)]
      ∧ es.map (stylesOfCls "minipage-row") = [[miniRowStyle (some 500), miniRowStyle (some 500)]])
    ∧ (∃ es, renderPage pageW3none 0 none "" (some 900) none none = .ok es
      ∧ es.map Elem.styleOf = [pageWrapperStyle (some 900)]
      ∧ es.map (stylesOfCls "minipage-row") = [[miniRowStyle (some 900), miniRowStyle (some 900)]]) := by
  refine ⟨fun n inh h => ?_, fun inh => rfl, fun pw dw => rfl, rfl,
    fun pw els i dl rp iw im idist e h => ?_, ?_, ?_, ?_⟩
  · simp [pyOrN, h]
  · obtain ⟨cells, _, he⟩ := renderMini_shape pw els i dl rp iw im idist e h
    subst he
    rfl
  · exact ⟨_, rfl, by decide, by decide⟩
  · exact ⟨_, rfl, by decide, by decide⟩
  · exact ⟨_, rfl, by decide, by decide⟩

/-- Witness for C4 at nonzero width 3 and a concrete empty mini-container. -/
theorem c4_effective_width_cascade_witness :
    pyOrN (some 3) (some 900) = some 3
    ∧ (Elem.tag "div" [("class", "minipage-row"), ("style", miniRowStyle (some 5))] .nil).styleOf
      = miniRowStyle (some 5) :=
  ⟨c4_effective_width_cascade.1 3 (some 900) (by decide),
   c4_effective_width_cascade.2.2.2.2.1 (some 5) .nil 0 none "" none none none
     (Elem.tag "div" [("class", "minipage-row"), ("style", miniRowStyle (some 5))] .nil) rfl⟩

/-- Helper: the clamped outline keeps every heading in order, its levels
never climb by more than one step, and its first level is at most one above
the seed. -/
theorem outlineClamp_props (xs : List (String × Nat)) :
    ∀ prev, (outlineClamp xs prev).map Prod.fst = xs.map Prod.fst
      ∧ List.Chain' (fun x y => y.2 ≤ x.2 + 1) (outlineClamp xs prev)
      ∧ (∀ y ∈ (outlineClamp xs prev).head?, y.2 ≤ prev + 1) := by
  induction xs with
  | nil => intro prev; simp [outlineClamp]
  | cons x rest ih =>
    intro prev
    obtain ⟨t, l⟩ := x
    refine ⟨?_, ?_, ?_⟩
    · simp [outlineClamp, (ih (min l (prev + 1))).1]
    · rw [outlineClamp, List.chain'_cons']
      exact ⟨fun y hy => by simpa using (ih (min l (prev + 1))).2.2 y hy,
             (ih (min l (prev + 1))).2.1⟩
    · intro y hy
      simp only [outlineClamp, List.head?_cons, Option.mem_def, Option.some.injEq] at hy
      subst hy
      simp

/-- C7 (spec-modelled): the PDF backend linearizes the page tree depth-first
— heading at a depth-derived level, then the blocks via the per-kind
dispatch with plots always raster-embedded (never consulting the vector
capability), then the children, with a page break after each top-level
subtree — and the outline captures every emitted heading in order with
levels that never jump up by more than one. -/
theorem c7_pdf_linearization :
    (∀ depth slug title pw m els cs,
      pdfPage depth (.mk slug title pw m els cs)
        = PdfItem.heading title (depth + 1) :: (pdfBlocks els ++ pdfChildren (depth + 1) cs))
    ∧ (∀ p ps, pdfTop (.cons p ps) = pdfPage 0 p ++ [PdfItem.pageBreak] ++ pdfTop ps)
    ∧ (∀ fig sh sw al b,
      pdfBlock (.plot { fig with hasToHtml := b } sh sw al) = pdfBlock (.plot fig sh sw al))
    ∧ (∀ d itp a aff,
      (outlineOf (publishPdf d itp a aff)).map Prod.fst
        = (headingsOf (publishPdf d itp a aff)).map Prod.fst
      ∧ List.Chain' (fun x y => y.2 ≤ x.2 + 1) (outlineOf (publishPdf d itp a aff))) := by
  refine ⟨fun _ _ _ _ _ _ _ => rfl, fun _ _ => rfl, fun fig sh sw al b => ?_, fun d itp a aff => ?_⟩
  · cases fig; rfl
  · exact ⟨(outlineClamp_props (headingsOf (publishPdf d itp a aff)) 0).1,
           (outlineClamp_props (headingsOf (publishPdf d itp a aff)) 0).2.1⟩

/-- Helper: the file paths `write_page` emits for a subtree are exactly the
subtree's slugs in depth-first preorder. -/
theorem writePaths_ok :
    (∀ p : Page, ∀ d dl fs, writePage d dl p = .ok fs →
      fs.map Prod.fst = (preorderSlugs p).map (fun s => s!"pages/{s}.html"))
    ∧ (∀ ps : PageList, ∀ d dl fs, writePages d dl ps = .ok fs →
      fs.map Prod.fst = (preorderSlugsList ps).map (fun s => s!"pages/{s}.html")) := by
  apply pageListInduction
  · intro slug title pw m els cs ih d dl fs h
    unfold writePage at h
    cases hdoc : pageDoc d (Page.mk slug title pw m els cs) dl with
    | error e =>
      rw [hdoc] at h
      simp only [Bind.bind, Except.bind] at h
      exact Except.noConfusion h
    | ok doc =>
      rw [hdoc] at h
      cases hrest : writePages d dl cs with
      | error e =>
        rw [hrest] at h
        simp only [Bind.bind, Except.bind] at h
        exact Except.noConfusion h
      | ok rest =>
        rw [hrest] at h
        simp only [Bind.bind, Except.bind, pure, Except.pure, Except.ok.injEq] at h
        subst h
        simp only [List.map_cons, preorderSlugs]
        exact congrArg (List.cons _) (ih d dl rest hrest)
  · intro d dl fs h
    unfold writePages at h
    cases h
    rfl
  · intro p ps ihp ihps d dl fs h
    unfold writePages at h
    cases h1 : writePage d dl p with
    | error e =>
      rw [h1] at h
      simp only [Bind.bind, Except.bind] at h
      exact Except.noConfusion h
    | ok fs1 =>
      rw [h1] at h
      cases h2 : writePages d dl ps with
      | error e =>
        rw [h2] at h
        simp only [Bind.bind, Except.bind] at h
        exact Except.noConfusion h
      | ok fs2 =>
        rw [h2] at h
        simp only [Bind.bind, Except.bind, pure, Except.pure, Except.ok.injEq] at h
        subst h
        simp only [List.map_append, preorderSlugsList]
        rw [ihp d dl fs1 h1, ihps d dl fs2 h2]

/-- Helper: preorder slug lists have one entry per page of the subtree. -/
theorem preorder_counts :
    (∀ p : Page, (preorderSlugs p).length = countPages p)
    ∧ (∀ ps : PageList, (preorderSlugsList ps).length = countPagesList ps) := by
  apply pageListInduction <;> intros <;>
    simp_all [preorderSlugs, preorderSlugsList, countPages, countPagesList] <;> omega

/-- C8: `publish` writes exactly one HTML file per page, in depth-first
preorder over the page tree with top-level pages in insertion order,
followed by the entry document `index.html`; on the P/A(A1)/B fixture the
order is P, A, A1, B. -/
theorem c8_publish_order :
    (∀ d fs, Dashboard.publish d = .ok fs →
      fs.map Prod.fst
        = (preorderSlugsList d.pages).map (fun s => s!"pages/{s}.html") ++ ["index.html"]
      ∧ fs.length = countPagesList d.pages + 1)
    ∧ (Dashboard.publish dashC8).map (fun fs => fs.map Prod.fst)
      = .ok ["pages/p.html", "pages/a.html", "pages/a1.html", "pages/b.html", "index.html"] := by
  constructor
  · intro d fs h
    simp only [Dashboard.publish] at h
    cases hw : writePages d (some "downloads") d.pages with
    | error e =>
      rw [hw] at h
      simp only [Bind.bind, Except.bind] at h
      exact Except.noConfusion h
    | ok pageFiles =>
      rw [hw] at h
      simp only [Bind.bind, Except.bind] at h
      have hmap := writePaths_ok.2 d.pages d (some "downloads") pageFiles hw
      cases hp : d.pages with
      | nil =>
        rw [hp] at h
        exact Except.noConfusion h
      | cons p0 ps =>
        rw [hp] at h
        dsimp only at h
        cases hidx : indexDoc d p0 (some "downloads") with
        | error e =>
          rw [hidx] at h
          exact Except.noConfusion h
        | ok idx =>
          rw [hidx] at h
          replace h := Except.ok.inj h
          subst h
          rw [hp] at hmap
          constructor
          · simp only [List.map_append, hmap, List.map_cons, List.map_nil]
          · have hlen : pageFiles.length = (preorderSlugsList (PageList.cons p0 ps)).length := by
              have := congrArg List.length hmap
              simpa using this
            simp [hlen, preorder_counts.2 (PageList.cons p0 ps)]
  · rfl

/-- Witness for C8 at the P/A(A1)/B fixture. -/
theorem c8_publish_order_witness :
    ∃ fs, Dashboard.publish dashC8 = .ok fs
      ∧ fs.map Prod.fst = ["pages/p.html", "pages/a.html", "pages/a1.html", "pages/b.html", "index.html"]
      ∧ fs.length = 5 := by
  cases h : Dashboard.publish dashC8 with
  | error e =>
    have hok : exceptIsOk (Dashboard.publish dashC8) = true := by decide
    rw [h] at hok
    exact Bool.noConfusion hok
  | ok fs =>
    refine ⟨fs, rfl, ?_, ?_⟩
    · exact ((c8_publish_order.1 dashC8 fs h).1).trans (by decide)
    · exact ((c8_publish_order.1 dashC8 fs h).2).trans (by decide)

/-- C1: `add_download` fails with `FileNotFoundError` before appending when
the path names no existing file, and appends the block when it does; but
`publish` copies nothing into the downloads area (the directory is created
and threaded through `render` yet never used, and `uuid` is imported but
unused) and the emitted link's `href` is the *original* source path. -/
theorem c1_download_checked_never_copied :
    (∀ fs els path label width, isfile fs path = false →
      add_download fs els path label width = .error s!"File not found: {path}")
    ∧ (∀ fs els path label width, isfile fs path = true →
      add_download fs els path label width = .ok (els.push (.download path label) width))
    ∧ (∀ path label, hrefsOfCls "download-button" (renderDownloadEl path label) = [path])
    ∧ (∃ fls, Dashboard.publish dashDl = .ok fls
      ∧ fls.map Prod.fst = ["pages/dl.html", "index.html"]
      ∧ (fls.map Prod.fst).all (fun s => !(strStarts s "downloads/")) = true
      ∧ fls.map (fun f => hrefsOfCls "download-button" f.2) = [["report.txt"], ["report.txt"]]) := by
  refine ⟨fun fs els path label width h => ?_, fun fs els path label width h => ?_,
    fun path label => rfl, ?_⟩
  · simp [add_download, h]
  · simp [add_download, h]
  · exact ⟨_, rfl, by decide, by decide, by decide⟩

/-- Witness for C1 at a one-file file system. -/
theorem c1_download_checked_never_copied_witness :
    add_download ["report.txt"] .nil "missing.txt" none none
      = .error "File not found: missing.txt"
    ∧ add_download ["report.txt"] .nil "report.txt" (some "Report") none
      = .ok (BlockList.push .nil (.download "report.txt" (some "Report")) none) :=
  ⟨c1_download_checked_never_copied.1 ["report.txt"] .nil "missing.txt" none none (by decide),
   c1_download_checked_never_copied.2.1 ["report.txt"] .nil "report.txt" (some "Report") none
     (by decide)⟩

end Staticdash
